import Mathlib

/-!
Shallow embedding of the intent-classification and routing core of the
E-Commerce-Assistant repository (apps/api: utils.py, intents.py, rag.py,
main_ver9.py).  Strings are modelled as `List Char`; Python's `re` word
characters, `str.lower`, substring containment (`in`) and list indexing
are modelled explicitly below.
-/

/-- Python substring test: `needle in hay` (for strings). -/
def inStr (needle : List Char) : List Char → Bool
  | [] => needle.isEmpty
  | c :: cs => needle.isPrefixOf (c :: cs) || inStr needle cs

/-- Python `str.lower` restricted to ASCII case mapping. -/
def pylower (s : List Char) : List Char := s.map Char.toLower

/-- A regex word character (`\w` over ASCII): letter, digit or underscore. -/
def isWordChar (c : Char) : Bool := c.isAlphanum || c = '_'

/-- Holds when an optional neighbouring character is absent or not a word
character: the `\b` condition next to a digit run. -/
def boundaryB : Option Char → Bool
  | none => true
  | some c => !isWordChar c

/-- Attempt of the regex `\b\d\x7b4,\x7d\b` at start position `i` of `s`
(`re` semantics: the greedy digit run from `i`, accepted when it has length
at least 4 and both neighbours are non-word characters or string ends). -/
def matchAt (s : List Char) (i : Nat) : Option (List Char) :=
  let rest := s.drop i
  let run := rest.takeWhile Char.isDigit
  if 4 ≤ run.length ∧ boundaryB (s.take i).getLast? = true ∧
      boundaryB (rest.dropWhile Char.isDigit).head? = true then
    some run
  else
    none

/-- Search semantics of `re.search`: try each start position from `i` upward
(at most `fuel` of them), return the first successful match. -/
def searchFrom (s : List Char) : Nat → Nat → Option (List Char)
  | 0, _ => none
  | fuel + 1, i =>
    match matchAt s i with
    | some r => some r
    | none => searchFrom s fuel (i + 1)

/-- utils.extract_order_id: first `\b\d\x7b4,\x7d\b` match in the text. -/
def extract_order_id (s : List Char) : Option (List Char) :=
  searchFrom s (s.length + 1) 0

/-- intents.has_order_id: `bool(re.search(r"\b\d\x7b4,\x7d\b", query))`. -/
def has_order_id (s : List Char) : Bool := (extract_order_id s).isSome

/-- Python truthiness of `order_id` (None or empty string are falsy). -/
def oidFalsy : Option (List Char) → Bool
  | none => true
  | some s => s.isEmpty

/-- The apostrophe character, U+0027. -/
def apos : Char := Char.ofNat 39

def STRONG_ORDER_ACTIONS : List (List Char) :=
  ["track".toList, "tracking".toList,
   "where is".toList, "where".toList ++ [apos] ++ "s".toList,
   "cancel".toList, "cancelled".toList,
   "refund my".toList, "refund order".toList, "refund status".toList,
   "return my".toList, "return order".toList, "return status".toList,
   "return request".toList,
   "replace my".toList,
   "order status".toList,
   "shipment status".toList]

def WEAK_ORDER_ACTIONS : List (List Char) :=
  ["shipment".toList, "delivered".toList, "delivery".toList, "package".toList]

/-- intents.has_order_action: a strong phrase alone, or a weak phrase
together with the substring "my". -/
def has_order_action (query : List Char) : Bool :=
  let q := pylower query
  STRONG_ORDER_ACTIONS.any (fun phrase => inStr phrase q) ||
    WEAK_ORDER_ACTIONS.any (fun phrase => inStr phrase q && inStr ("my".toList) q)

def FAQ_KEYWORDS_refund : List (List Char) :=
  ["refund".toList, "refunds".toList, "money back".toList,
   "refund time".toList, "refund status".toList,
   "refund processing time".toList]

def FAQ_KEYWORDS_return : List (List Char) :=
  ["return".toList, "returns".toList, "return item".toList,
   "return window".toList, "return period".toList,
   "return eligibility".toList, "return rules".toList]

def FAQ_KEYWORDS_exchange : List (List Char) :=
  ["exchange".toList, "replacement".toList, "replace item".toList]

def FAQ_KEYWORDS_defective : List (List Char) :=
  ["defective".toList, "damaged".toList, "broken".toList,
   "wrong item".toList, "incorrect item".toList]

def FAQ_KEYWORDS_exceptions : List (List Char) :=
  ["exception".toList, "exceptions".toList,
   "excluded".toList, "exclusion".toList,
   "non refundable".toList, "non returnable".toList,
   "final sale".toList, "clearance".toList,
   "special case".toList, "special conditions".toList]

def FAQ_KEYWORDS_international : List (List Char) :=
  ["international".toList, "overseas".toList,
   "outside india".toList, "global".toList,
   "remote area".toList, "remote location".toList,
   "cross border".toList]

def FAQ_KEYWORDS_contact : List (List Char) :=
  ["contact".toList, "support".toList,
   "customer care".toList, "customer support".toList,
   "helpdesk".toList, "email".toList,
   "phone".toList, "call".toList,
   "live chat".toList]

def FAQ_KEYWORDS_shipping : List (List Char) :=
  ["shipping".toList, "delivery".toList,
   "ship".toList, "deliver".toList,
   "shipping time".toList, "delivery time".toList]

def FAQ_KEYWORDS_policy : List (List Char) :=
  ["policy".toList, "terms".toList, "conditions".toList,
   "rules".toList, "guidelines".toList]

/-- All values of the FAQ_KEYWORDS dict, flattened in insertion order. -/
def FAQ_KEYWORDS_all : List (List Char) :=
  FAQ_KEYWORDS_refund ++ FAQ_KEYWORDS_return ++ FAQ_KEYWORDS_exchange ++
    FAQ_KEYWORDS_defective ++ FAQ_KEYWORDS_exceptions ++
    FAQ_KEYWORDS_international ++ FAQ_KEYWORDS_contact ++
    FAQ_KEYWORDS_shipping ++ FAQ_KEYWORDS_policy

/-- intents.is_faq_intent. -/
def is_faq_intent (query : List Char) : Bool :=
  let q := pylower query
  FAQ_KEYWORDS_all.any (fun kw => inStr kw q)

/-- intents.is_policy_query. -/
def is_policy_query (query : List Char) : Bool :=
  let q := pylower query
  ["return policy".toList, "refund policy".toList, "exchange policy".toList,
   "exceptions policy".toList, "international returns policy".toList,
   "support policy".toList, "rules policy".toList].any
    (fun p => inStr p q)

def ESCALATION_KEYWORDS : List (List Char) :=
  ["complaint".toList, "issue not resolved".toList, "escalate".toList,
   "escalation".toList, "agent".toList, "human support".toList,
   "talk to agent".toList, "customer care".toList, "manager".toList,
   "supervisor".toList, "not happy".toList, "problem persists".toList]

/-- intents.is_escalation_intent. -/
def is_escalation_intent (query : List Char) : Bool :=
  let q := pylower query
  ESCALATION_KEYWORDS.any (fun kw => inStr kw q)

/-- The classification dict returned by intents.classify_intent. -/
structure Classif where
  intent : List Char
  needs_order_id : Bool
  deriving DecidableEq, Repr

/-- intents.classify_intent: the fixed-priority cascade. -/
def classify_intent (user_query : List Char) : Classif :=
  let q := pylower user_query
  let order_id_present := has_order_id q
  let order_action_present := has_order_action q
  let is_order_query := order_id_present && order_action_present
  if is_order_query then
    if inStr ("refund".toList) q || inStr ("refund status".toList) q ||
        inStr ("refund order".toList) q then
      ⟨"refund_status".toList, true⟩
    else if inStr ("return".toList) q || inStr ("return status".toList) q ||
        inStr ("return request".toList) q || inStr ("return order".toList) q then
      ⟨"return_request".toList, true⟩
    else if inStr ("track".toList) q || inStr ("where is my order".toList) q ||
        inStr ("order status".toList) q then
      ⟨"order_status".toList, true⟩
    else
      ⟨"order_status".toList, true⟩
  else if is_escalation_intent q then
    ⟨"escalation".toList, true⟩
  else if FAQ_KEYWORDS_shipping.any (fun kw => inStr kw q) then
    ⟨"shipping".toList, false⟩
  else if is_faq_intent q then
    ⟨"faq".toList, false⟩
  else
    ⟨"general".toList, false⟩

/-! ### rag.py: retrieval -/

/-- Python list indexing `xs[i]` with negative-index support; `none` models
an IndexError. -/
def pyGet {α : Type} (xs : List α) (i : Int) : Option α :=
  let j := if i < 0 then i + xs.length else i
  if 0 ≤ j ∧ j < xs.length then xs[j.toNat]? else none

/-- Result-building loop of rag.retrieve_docs: keep `docs[idx]` for every
`(dist, idx)` pair with `dist <= threshold`; `none` models an IndexError
raised by `docs[idx]`. -/
def buildResults (docs : List (List Char)) (threshold : ℚ) :
    List (ℚ × Int) → Option (List (List Char))
  | [] => some []
  | (d, i) :: rest =>
    if d ≤ threshold then
      match pyGet docs i, buildResults docs threshold rest with
      | some doc, some rs => some (doc :: rs)
      | _, _ => none
    else
      buildResults docs threshold rest

/-- rag.retrieve_docs over a loaded corpus `docs`, with the embedder and the
FAISS index abstracted into the collaborator `searchFn` mapping a query and
`k` to the `(distances, indices)` rows that `index.search` returns.  The
source defaults are `k = 4`, `threshold = 2.5`. -/
def retrieve_docs (docs : List (List Char))
    (searchFn : List Char → Nat → List ℚ × List Int)
    (query : List Char) (k : Nat) (threshold : ℚ) :
    Option (List (List Char)) :=
  let res := searchFn query k
  buildResults docs threshold (res.1.zip res.2)

/-! ### main_ver9.py: the chat endpoint and idempotent mutation endpoints -/

/-- Python `str(x)` for an optional string, `None` rendering as "None". -/
def strOfOpt : Option (List Char) → List Char
  | none => "None".toList
  | some s => s

/-- utils.find_record, generic over the record type: first record whose
`order_id` field equals the identifier or whose `ticket_id` field equals
"TKT-" followed by the identifier. -/
def find_record {α : Type} (getOid getTkt : α → Option (List Char))
    (records : List α) (order_id : List Char) : Option α :=
  records.find? (fun rec =>
    strOfOpt (getOid rec) == order_id ||
      strOfOpt (getTkt rec) == "TKT-".toList ++ order_id)

structure ItemRec where
  sku : List Char
  name : List Char
  qty : Nat
  deriving DecidableEq

structure OrderRec where
  order_id : Option (List Char)
  ticket_id : Option (List Char)
  status : List Char
  estimated_delivery : List Char
  items : List ItemRec
  deriving DecidableEq

structure RefundRec where
  order_id : Option (List Char)
  ticket_id : Option (List Char)
  status : List Char
  amount : List Char
  timeline : List Char
  deriving DecidableEq

structure ReturnRec where
  order_id : Option (List Char)
  ticket_id : Option (List Char)
  item_id : List Char
  reason : List Char
  method : List Char
  label_url : List Char
  deriving DecidableEq

structure EscalationRec where
  order_id : Option (List Char)
  ticket_id : Option (List Char)
  status : List Char
  assigned_to : List Char
  deriving DecidableEq

/-- Observable side effects of one /chat request: a retrieval call, a
generation call, or a mock-record lookup in one of the four collections. -/
inductive Collection where
  | order_status
  | refund_status
  | return_request
  | escalation
  deriving DecidableEq

inductive Effect where
  | retrieval
  | generation
  | lookup (c : Collection)
  deriving DecidableEq

/-- External collaborators and mock data visible to the /chat endpoint:
`retrieve` is rag.retrieve_docs applied to the query (its result list),
`generate` is the text-generation pipeline (prompt to generated_text). -/
structure Env where
  retrieve : List Char → List (List Char)
  generate : List Char → List Char
  mock_order_status : List OrderRec
  mock_refund_status : List RefundRec
  mock_return_request : List ReturnRec
  mock_escalation : List EscalationRec

/-- Python `str.strip()`: drop whitespace from both ends. -/
def pystrip (s : List Char) : List Char :=
  ((s.dropWhile Char.isWhitespace).reverse.dropWhile Char.isWhitespace).reverse

def guardMsg : List Char :=
  "❗ Please provide a valid order number (e.g., 12345).".toList

def insufficientMsg : List Char :=
  "I don".toList ++ [apos] ++ "t have enough information to answer that.".toList

def fallbackMsg : List Char :=
  "ℹ️ This assistant supports order status, refund status, returns, and escalations.".toList

def promptPart1 : List Char :=
  "\n        You are a customer support assistant.\n\n        When answering:\n        - Provide a complete and clear response.\n        - Include all relevant conditions, steps, timelines, and exceptions.\n        - If multiple sentences in the context relate to the question, combine them into one coherent answer.\n        - Do not truncate the answer.\n\n        If the context does not contain the answer, reply exactly:\n        \"I don".toList ++ [apos] ++ "t have that information.\"\n\n        Context:\n        ".toList

def promptPart2 : List Char := "\n\n        Customer Question:\n        ".toList

def promptPart3 : List Char := "\n\n        Answer:\n        ".toList

/-- The grounded prompt assembled in the FAQ branch of /chat. -/
def promptTemplate (context user_query : List Char) : List Char :=
  promptPart1 ++ context ++ promptPart2 ++ user_query ++ promptPart3

def itemsStr (items : List ItemRec) : List Char :=
  List.intercalate ['\n'] (items.map (fun i =>
    "- ".toList ++ i.name ++ " (SKU: ".toList ++ i.sku ++ ", Qty: ".toList ++
      (Nat.repr i.qty).toList ++ ")".toList))

def orderStatusMsg (oid : List Char) (data : OrderRec) : List Char :=
  "👜 Order #".toList ++ oid ++ " is ".toList ++ data.status ++
    " and will arrive by ".toList ++ data.estimated_delivery ++
    ".\nItems:\n".toList ++ itemsStr data.items

def refundStatusMsg (oid : List Char) (data : RefundRec) : List Char :=
  "🧾 Refund for Order #".toList ++ oid ++ " is in **".toList ++ data.status ++
    "**.\nAmount: ".toList ++ data.amount ++ " INR\nTimeline: ".toList ++
    data.timeline

def returnRequestMsg (oid : List Char) (data : ReturnRec) : List Char :=
  "📦 Return request for Order #".toList ++ oid ++ ":\n- Item: ".toList ++
    data.item_id ++ "\n- Reason: ".toList ++ data.reason ++
    "\n- Method: ".toList ++ data.method ++
    "\n[Download return label](".toList ++ data.label_url ++ ")".toList

def escalationMsg (oid : List Char) (data : EscalationRec) : List Char :=
  "⚠️ Escalation created for Order #".toList ++ oid ++
    ":\n- Ticket ID: ".toList ++ strOfOpt data.ticket_id ++
    "\n- Status: ".toList ++ data.status ++ "\n- Assigned To: ".toList ++
    data.assigned_to

def noOrderMsg (oid : List Char) : List Char :=
  "❌ No data found for order #".toList ++ oid ++ ".".toList

def noRefundMsg (oid : List Char) : List Char :=
  "❌ No refund record found for order #".toList ++ oid ++ ".".toList

def noReturnMsg (oid : List Char) : List Char :=
  "❌ No return request found for order #".toList ++ oid ++ ".".toList

def noEscalationMsg (oid : List Char) : List Char :=
  "❌ No escalation record found for order #".toList ++ oid ++ ".".toList

/-- FAQ branch of /chat: retrieve, short-circuit on an empty result, else
prompt the generator and return its stripped output. -/
def faqBranch (env : Env) (user_query : List Char) : List Char × List Effect :=
  let retrieved := env.retrieve user_query
  if retrieved.isEmpty then
    (insufficientMsg, [Effect.retrieval])
  else
    let context := List.intercalate ['\n'] retrieved
    let prompt := promptTemplate context user_query
    (pystrip (env.generate prompt), [Effect.retrieval, Effect.generation])

/-- The /chat endpoint of main_ver9.py, returning the response message
together with the ordered list of collaborator effects it performed. -/
def chat (env : Env) (message : List Char) : List Char × List Effect :=
  let user_query := message
  let c := classify_intent user_query
  let intent := c.intent
  let needs_order_id := c.needs_order_id
  let order_id := extract_order_id user_query
  if needs_order_id && oidFalsy order_id then
    (guardMsg, [])
  else if (intent == "faq".toList || intent == "unknown".toList) ||
      is_policy_query user_query then
    faqBranch env user_query
  else if intent == "order_status".toList then
    match find_record OrderRec.order_id OrderRec.ticket_id
        env.mock_order_status (strOfOpt order_id) with
    | some data =>
      (orderStatusMsg (strOfOpt order_id) data,
        [Effect.lookup Collection.order_status])
    | none =>
      (noOrderMsg (strOfOpt order_id), [Effect.lookup Collection.order_status])
  else if intent == "refund_status".toList then
    match find_record RefundRec.order_id RefundRec.ticket_id
        env.mock_refund_status (strOfOpt order_id) with
    | some data =>
      (refundStatusMsg (strOfOpt order_id) data,
        [Effect.lookup Collection.refund_status])
    | none =>
      (noRefundMsg (strOfOpt order_id),
        [Effect.lookup Collection.refund_status])
  else if intent == "return_request".toList then
    match find_record ReturnRec.order_id ReturnRec.ticket_id
        env.mock_return_request (strOfOpt order_id) with
    | some data =>
      (returnRequestMsg (strOfOpt order_id) data,
        [Effect.lookup Collection.return_request])
    | none =>
      (noReturnMsg (strOfOpt order_id),
        [Effect.lookup Collection.return_request])
  else if intent == "escalation".toList then
    match find_record EscalationRec.order_id EscalationRec.ticket_id
        env.mock_escalation (strOfOpt order_id) with
    | some data =>
      (escalationMsg (strOfOpt order_id) data,
        [Effect.lookup Collection.escalation])
    | none =>
      (noEscalationMsg (strOfOpt order_id),
        [Effect.lookup Collection.escalation])
  else
    (fallbackMsg, [])

/-- Pydantic RefundResponse: `amount` defaults to None. -/
structure RefundResponse where
  order_id : List Char
  status : List Char
  amount : Option ℚ
  deriving DecidableEq

structure ReturnResponse where
  order_id : List Char
  item_id : List Char
  reason : List Char
  method : List Char
  deriving DecidableEq

/-- Process-wide idempotency ledgers of main_ver9.py (both start empty). -/
structure LedgerState where
  processed_refunds : List (List Char)
  processed_returns : List (List Char)
  deriving DecidableEq

/-- The /refund/\x7border_id\x7d endpoint: state-passing form of
main_ver9.refund_order over the `processed_refunds` set. -/
def refund_order (st : LedgerState) (order_id : List Char) :
    RefundResponse × LedgerState :=
  if order_id ∈ st.processed_refunds then
    (⟨order_id, "already_refunded".toList, none⟩, st)
  else
    (⟨order_id, "refund_processed".toList, some 1200⟩,
      { st with processed_refunds := order_id :: st.processed_refunds })

/-- The /return/\x7border_id\x7d endpoint: state-passing form of
main_ver9.return_order over the `processed_returns` set. -/
def return_order (st : LedgerState) (order_id : List Char) :
    ReturnResponse × LedgerState :=
  if order_id ∈ st.processed_returns then
    (⟨order_id, "XYZ789".toList, "duplicate_request".toList, "pickup".toList⟩, st)
  else
    (⟨order_id, "XYZ789".toList, "size_issue".toList, "dropoff".toList⟩,
      { st with processed_returns := order_id :: st.processed_returns })

/-- A concrete environment used by witnesses and counterexamples: retrieval
finds nothing, generation echoes nothing, all mock collections are empty. -/
def envTest : Env :=
  { retrieve := fun _ => []
    generate := fun _ => []
    mock_order_status := []
    mock_refund_status := []
    mock_return_request := []
    mock_escalation := [] }

/-! ### Spec-side definitions for the extractor claim -/

/-- Boundary test under the claim's literal wording: the neighbouring
character must be absent or a non-digit character. -/
def boundaryNonDigit : Option Char → Bool
  | none => true
  | some c => !c.isDigit

/-- Match attempt at position `i` under the claim's literal wording: a
maximal digit run of length at least 4 whose neighbours are non-digit
(rather than non-word) characters. -/
def matchAtNonDigit (s : List Char) (i : Nat) : Option (List Char) :=
  let rest := s.drop i
  let run := rest.takeWhile Char.isDigit
  if 4 ≤ run.length ∧ boundaryNonDigit (s.take i).getLast? = true ∧
      boundaryNonDigit (rest.dropWhile Char.isDigit).head? = true then
    some run
  else
    none

def searchFromNonDigit (s : List Char) : Nat → Nat → Option (List Char)
  | 0, _ => none
  | fuel + 1, i =>
    match matchAtNonDigit s i with
    | some r => some r
    | none => searchFromNonDigit s fuel (i + 1)

/-- Extraction as the claim literally words it: the first maximal run of 4
or more digits bounded by non-digit characters. -/
def claimedExtract (s : List Char) : Option (List Char) :=
  searchFromNonDigit s (s.length + 1) 0

/-- Declarative reading of one regex word match: at position `i` the text
splits as `pre ++ r ++ post` where `r` is all digits, has length at least 4,
and the neighbouring characters (when present) are non-word characters. -/
def SpecMatch (s : List Char) (i : Nat) (r : List Char) : Prop :=
  ∃ pre post, s = pre ++ r ++ post ∧ pre.length = i ∧ 4 ≤ r.length ∧
    (∀ c ∈ r, c.isDigit = true) ∧
    (∀ c, pre.getLast? = some c → isWordChar c = false) ∧
    (∀ c, post.head? = some c → isWordChar c = false)

/-- The run `r` is the leftmost such match in `s`. -/
def SpecFirst (s : List Char) (r : List Char) : Prop :=
  ∃ i, SpecMatch s i r ∧ ∀ j r2, SpecMatch s j r2 → i ≤ j

/-! ### Helper lemmas about characters and case-insensitive matching -/

theorem char_toNat_ofNat_valid {n : Nat} (h : n.isValidChar) :
    (Char.ofNat n).toNat = n := by
  simp [Char.ofNat, h, Char.ofNatAux, Char.toNat, UInt32.toNat]

theorem char_toLower_of_not_upper {c : Char} (h : ¬(65 ≤ c.toNat ∧ c.toNat ≤ 90)) :
    c.toLower = c := by
  rw [Char.toLower, if_neg (by omega)]

theorem char_toLower_toNat_of_upper {c : Char} (h : 65 ≤ c.toNat ∧ c.toNat ≤ 90) :
    c.toLower.toNat = c.toNat + 32 := by
  rw [Char.toLower, if_pos (by omega)]
  exact char_toNat_ofNat_valid (Or.inl (by omega))

theorem char_toLower_toLower (c : Char) : c.toLower.toLower = c.toLower := by
  by_cases h : 65 ≤ c.toNat ∧ c.toNat ≤ 90
  · have h1 := char_toLower_toNat_of_upper h
    exact char_toLower_of_not_upper (by omega)
  · rw [char_toLower_of_not_upper h, char_toLower_of_not_upper h]

theorem char_isDigit_iff (c : Char) : c.isDigit = true ↔ 48 ≤ c.toNat ∧ c.toNat ≤ 57 := by
  simp [Char.isDigit, Char.toNat]
  exact Iff.rfl

theorem char_isDigit_toLower (c : Char) : c.toLower.isDigit = c.isDigit := by
  by_cases h : 65 ≤ c.toNat ∧ c.toNat ≤ 90
  · have h1 := char_toLower_toNat_of_upper h
    have d1 : c.toLower.isDigit = false := by
      rw [← Bool.not_eq_true, Bool.not_eq_true]
      by_contra hd
      rw [Bool.not_eq_false, char_isDigit_iff] at hd
      omega
    have d2 : c.isDigit = false := by
      rw [← Bool.not_eq_true, Bool.not_eq_true]
      by_contra hd
      rw [Bool.not_eq_false, char_isDigit_iff] at hd
      omega
    rw [d1, d2]
  · rw [char_toLower_of_not_upper h]

theorem char_toLower_of_isDigit {c : Char} (h : c.isDigit = true) : c.toLower = c := by
  rw [char_isDigit_iff] at h
  exact char_toLower_of_not_upper (by omega)

theorem u32_le_iff (a b : UInt32) : a ≤ b ↔ a.toNat ≤ b.toNat := Iff.rfl

theorem char_isWordChar_iff (c : Char) : isWordChar c = true ↔
    (65 ≤ c.toNat ∧ c.toNat ≤ 90) ∨ (97 ≤ c.toNat ∧ c.toNat ≤ 122) ∨
    (48 ≤ c.toNat ∧ c.toNat ≤ 57) ∨ c.toNat = 95 := by
  simp [isWordChar, Char.isAlphanum, Char.isAlpha, Char.isUpper, Char.isLower,
    Char.isDigit, Char.ext_iff, UInt32.ext_iff, Char.toNat, u32_le_iff]
  rw [Nat.mod_eq_of_lt (by norm_num)]
  tauto

theorem char_isWordChar_toLower (c : Char) : isWordChar c.toLower = isWordChar c := by
  by_cases h : 65 ≤ c.toNat ∧ c.toNat ≤ 90
  · have h1 := char_toLower_toNat_of_upper h
    have w1 : isWordChar c.toLower = true := by
      rw [char_isWordChar_iff]
      omega
    have w2 : isWordChar c = true := by
      rw [char_isWordChar_iff]
      omega
    rw [w1, w2]
  · rw [char_toLower_of_not_upper h]

theorem pylower_idem (s : List Char) : pylower (pylower s) = pylower s := by
  induction s with
  | nil => rfl
  | cons c cs ih =>
    simp only [pylower, List.map_cons] at *
    rw [char_toLower_toLower]
    exact congrArg _ ih

theorem takeWhile_isDigit_pylower (l : List Char) :
    (pylower l).takeWhile Char.isDigit = l.takeWhile Char.isDigit := by
  rw [pylower, List.takeWhile_map]
  have h1 : (Char.isDigit ∘ Char.toLower) = Char.isDigit := by
    funext c
    simp [Function.comp, char_isDigit_toLower]
  rw [h1]
  induction l with
  | nil => rfl
  | cons c cs ih =>
    by_cases h : c.isDigit = true
    · simp [List.takeWhile_cons, h, char_toLower_of_isDigit h, ih]
    · simp at h
      simp [List.takeWhile_cons, h]

theorem dropWhile_isDigit_pylower (l : List Char) :
    (pylower l).dropWhile Char.isDigit = pylower (l.dropWhile Char.isDigit) := by
  rw [pylower, List.dropWhile_map]
  have h1 : (Char.isDigit ∘ Char.toLower) = Char.isDigit := by
    funext c
    simp [Function.comp, char_isDigit_toLower]
  rw [h1, pylower]

theorem matchAt_pylower (s : List Char) (i : Nat) :
    matchAt (pylower s) i = matchAt s i := by
  have hdrop : (pylower s).drop i = pylower (s.drop i) := by
    simp [pylower]
  have htake : (pylower s).take i = pylower (s.take i) := by
    simp [pylower]
  have hlast : boundaryB (pylower (s.take i)).getLast? =
      boundaryB (s.take i).getLast? := by
    rw [pylower, List.getLast?_map]
    cases (s.take i).getLast? with
    | none => rfl
    | some c => simp [boundaryB, char_isWordChar_toLower]
  have hhead : boundaryB ((pylower (s.drop i)).dropWhile Char.isDigit).head? =
      boundaryB ((s.drop i).dropWhile Char.isDigit).head? := by
    rw [dropWhile_isDigit_pylower, pylower, List.head?_map]
    cases ((s.drop i).dropWhile Char.isDigit).head? with
    | none => rfl
    | some c => simp [boundaryB, char_isWordChar_toLower]
  simp only [matchAt, hdrop, htake, hlast, hhead, takeWhile_isDigit_pylower]

theorem searchFrom_pylower (s : List Char) (fuel i : Nat) :
    searchFrom (pylower s) fuel i = searchFrom s fuel i := by
  induction fuel generalizing i with
  | zero => rfl
  | succ n ih =>
    simp only [searchFrom, matchAt_pylower]
    cases h : matchAt s i with
    | some r => rfl
    | none => exact ih (i + 1)

theorem extract_order_id_pylower (s : List Char) :
    extract_order_id (pylower s) = extract_order_id s := by
  unfold extract_order_id
  have hl : (pylower s).length = s.length := by simp [pylower]
  rw [hl, searchFrom_pylower]

theorem has_order_id_pylower (s : List Char) :
    has_order_id (pylower s) = has_order_id s := by
  simp only [has_order_id, extract_order_id_pylower]

theorem has_order_action_pylower (q : List Char) :
    has_order_action (pylower q) = has_order_action q := by
  simp only [has_order_action, pylower_idem]

/-! ### Claim theorems -/

/-- C1: whenever the classification requires an order identifier and none can
be extracted from the message, /chat returns exactly the fixed clarification
message with an empty effect list — no retrieval, no generation and no
mock-record lookup is performed. -/
theorem C1_guard_short_circuits (env : Env) (q : List Char)
    (hneeds : (classify_intent q).needs_order_id = true)
    (hnone : extract_order_id q = none) :
    chat env q = (guardMsg, []) := by
  simp only [chat, hneeds, hnone, oidFalsy, Bool.and_true, if_true]

theorem C1_witness :
    (classify_intent ("i have a complaint".toList)).needs_order_id = true ∧
      extract_order_id ("i have a complaint".toList) = none ∧
      chat envTest ("i have a complaint".toList) = (guardMsg, []) :=
  ⟨by decide, by decide,
    C1_guard_short_circuits envTest ("i have a complaint".toList)
      (by decide) (by decide)⟩

/-- C2: for an identifier not yet in the corresponding ledger, the first
refund (resp. return) call performs the action and adds the identifier to the
ledger; the second call leaves the ledger unchanged and returns a different
response marked as already processed. -/
theorem C2_mutations_idempotent (st : LedgerState) (oid : List Char)
    (hr : oid ∉ st.processed_refunds) (ht : oid ∉ st.processed_returns) :
    ((refund_order st oid).1.status = "refund_processed".toList ∧
      (refund_order st oid).2.processed_refunds = oid :: st.processed_refunds ∧
      (refund_order (refund_order st oid).2 oid).2 = (refund_order st oid).2 ∧
      (refund_order (refund_order st oid).2 oid).1.status =
        "already_refunded".toList ∧
      (refund_order (refund_order st oid).2 oid).1 ≠ (refund_order st oid).1) ∧
    ((return_order st oid).1.reason = "size_issue".toList ∧
      (return_order st oid).2.processed_returns = oid :: st.processed_returns ∧
      (return_order (return_order st oid).2 oid).2 = (return_order st oid).2 ∧
      (return_order (return_order st oid).2 oid).1.reason =
        "duplicate_request".toList ∧
      (return_order (return_order st oid).2 oid).1 ≠ (return_order st oid).1) := by
  have h1 : refund_order st oid = (⟨oid, "refund_processed".toList, some 1200⟩,
      { st with processed_refunds := oid :: st.processed_refunds }) := by
    rw [refund_order, if_neg hr]
  have h2 : refund_order
      { st with processed_refunds := oid :: st.processed_refunds } oid =
      (⟨oid, "already_refunded".toList, none⟩,
        { st with processed_refunds := oid :: st.processed_refunds }) := by
    rw [refund_order, if_pos (List.mem_cons_self oid _)]
  have h3 : return_order st oid =
      (⟨oid, "XYZ789".toList, "size_issue".toList, "dropoff".toList⟩,
        { st with processed_returns := oid :: st.processed_returns }) := by
    rw [return_order, if_neg ht]
  have h4 : return_order
      { st with processed_returns := oid :: st.processed_returns } oid =
      (⟨oid, "XYZ789".toList, "duplicate_request".toList, "pickup".toList⟩,
        { st with processed_returns := oid :: st.processed_returns }) := by
    rw [return_order, if_pos (List.mem_cons_self oid _)]
  rw [h1, h2, h3, h4]
  refine ⟨⟨rfl, rfl, rfl, rfl, ?_⟩, rfl, rfl, rfl, rfl, ?_⟩
  · intro h
    have hs : ("already_refunded".toList : List Char) = "refund_processed".toList :=
      congrArg RefundResponse.status h
    exact absurd hs (by decide)
  · intro h
    have hs : ("duplicate_request".toList : List Char) = "size_issue".toList :=
      congrArg ReturnResponse.reason h
    exact absurd hs (by decide)

theorem C2_witness :
    ("12345".toList ∉ (⟨[], []⟩ : LedgerState).processed_refunds) ∧
      ("12345".toList ∉ (⟨[], []⟩ : LedgerState).processed_returns) ∧
      ((refund_order ⟨[], []⟩ ("12345".toList)).1.status =
        "refund_processed".toList) ∧
      (refund_order (refund_order ⟨[], []⟩ ("12345".toList)).2
        ("12345".toList)).1.status = "already_refunded".toList :=
  ⟨by decide, by decide,
    (C2_mutations_idempotent ⟨[], []⟩ ("12345".toList)
      (by decide) (by decide)).1.1,
    (C2_mutations_idempotent ⟨[], []⟩ ("12345".toList)
      (by decide) (by decide)).1.2.2.2.1⟩

/-- C5: a query containing a ≥4-digit word and a strong order-action phrase
(case-insensitively) classifies to one of the order sub-kinds, with
needs_order_id set. -/
theorem C5_strong_action_classifies_order (q : List Char)
    (hid : has_order_id q = true)
    (hact : ∃ p ∈ STRONG_ORDER_ACTIONS, inStr p (pylower q) = true) :
    (classify_intent q).needs_order_id = true ∧
      ((classify_intent q).intent = "order_status".toList ∨
        (classify_intent q).intent = "refund_status".toList ∨
        (classify_intent q).intent = "return_request".toList) := by
  have hact2 : has_order_action (pylower q) = true := by
    rw [has_order_action_pylower]
    simp only [has_order_action, Bool.or_eq_true, List.any_eq_true]
    obtain ⟨p, hp, hin⟩ := hact
    exact Or.inl ⟨p, hp, hin⟩
  have hid2 : has_order_id (pylower q) = true := by
    rw [has_order_id_pylower]
    exact hid
  simp only [classify_intent, hid2, hact2, Bool.and_self, if_true]
  split
  · exact ⟨rfl, by decide⟩
  · split
    · exact ⟨rfl, by decide⟩
    · split
      · exact ⟨rfl, by decide⟩
      · exact ⟨rfl, by decide⟩

theorem C5_witness :
    has_order_id ("track order 12345".toList) = true ∧
      (∃ p ∈ STRONG_ORDER_ACTIONS,
        inStr p (pylower ("track order 12345".toList)) = true) ∧
      (classify_intent ("track order 12345".toList)).needs_order_id = true :=
  ⟨by decide, by decide,
    (C5_strong_action_classifies_order ("track order 12345".toList)
      (by decide) (by decide)).1⟩

/-- C6: a query containing a weak order-action phrase but neither the
substring "my" nor any strong phrase has no order action, and hence does not
classify to any order sub-kind. -/
theorem C6_weak_without_my (q : List Char)
    (_hweak : ∃ w ∈ WEAK_ORDER_ACTIONS, inStr w (pylower q) = true)
    (hmy : inStr ("my".toList) (pylower q) = false)
    (hstrong : ∀ p ∈ STRONG_ORDER_ACTIONS, inStr p (pylower q) = false) :
    has_order_action q = false ∧
      (classify_intent q).intent ≠ "order_status".toList ∧
      (classify_intent q).intent ≠ "refund_status".toList ∧
      (classify_intent q).intent ≠ "return_request".toList := by
  have hao : has_order_action q = false := by
    simp only [has_order_action, Bool.or_eq_false_iff, List.any_eq_false]
    constructor
    · intro p hp
      rw [hstrong p hp]
      simp
    · intro p _
      rw [hmy, Bool.and_false]
      simp
  refine ⟨hao, ?_⟩
  have hao2 : has_order_action (pylower q) = false := by
    rw [has_order_action_pylower]
    exact hao
  simp only [classify_intent, hao2, Bool.and_false]
  split
  · exact absurd (by assumption) (by decide)
  · split
    · exact by decide
    · split
      · exact by decide
      · split
        · exact by decide
        · exact by decide

theorem C6_witness :
    (∃ w ∈ WEAK_ORDER_ACTIONS,
      inStr w (pylower ("package delivery".toList)) = true) ∧
      has_order_action ("package delivery".toList) = false :=
  ⟨by decide,
    (C6_weak_without_my ("package delivery".toList)
      (by decide) (by decide) (by decide)).1⟩

/-- C4 counterexample: for the input "refund status" the extractor finds no
identifier, yet the classifier labels it faq with needs_order_id = false, so
the Guard does not fire: /chat takes the FAQ path and (in an environment
whose retrieval returns nothing) answers with the insufficient-information
message, not the clarification text. -/
theorem C4_counterexample :
    extract_order_id ("refund status".toList) = none ∧
      (classify_intent ("refund status".toList)).needs_order_id = false ∧
      chat envTest ("refund status".toList) =
        (insufficientMsg, [Effect.retrieval]) ∧
      insufficientMsg ≠ guardMsg := by
  refine ⟨by decide, by decide, by decide, by decide⟩

/-- C4 amended: for the input "refund status" no identifier is extracted, the
classification is faq without an identifier requirement, and /chat takes the
retrieval-augmented FAQ path (the Guard does not fire). -/
theorem C4_amended_faq_path (env : Env) :
    extract_order_id ("refund status".toList) = none ∧
      classify_intent ("refund status".toList) = ⟨"faq".toList, false⟩ ∧
      chat env ("refund status".toList) =
        faqBranch env ("refund status".toList) := by
  have hc : classify_intent ("refund status".toList) = ⟨"faq".toList, false⟩ := by
    decide
  refine ⟨by decide, hc, ?_⟩
  simp only [chat, hc, Bool.false_and, Bool.and_eq_true]
  simp

/-- C9 counterexample: the message "complaint about return policy" is flagged
by the policy-query detector, yet /chat does not take the FAQ path: the
classifier labels it escalation (needs an identifier), no identifier is
present, and the Guard answers with the clarification text, performing no
retrieval. -/
theorem C9_counterexample :
    is_policy_query ("complaint about return policy".toList) = true ∧
      chat envTest ("complaint about return policy".toList) = (guardMsg, []) ∧
      Effect.retrieval ∉ (chat envTest ("complaint about return policy".toList)).2 := by
  refine ⟨by decide, by decide, by decide⟩

/-- C9 amended: a policy-flagged request takes the retrieval-augmented FAQ
path whatever the cascade's intent label, provided the identifier Guard does
not fire first. -/
theorem C9_policy_or_gate (env : Env) (q : List Char)
    (hpol : is_policy_query q = true)
    (hguard : ((classify_intent q).needs_order_id &&
      oidFalsy (extract_order_id q)) = false) :
    chat env q = faqBranch env q := by
  simp only [chat, hguard, hpol, Bool.or_true, if_true, Bool.false_eq_true,
    if_false]

theorem C9_witness :
    is_policy_query ("what is your return policy".toList) = true ∧
      (((classify_intent ("what is your return policy".toList)).needs_order_id &&
        oidFalsy (extract_order_id ("what is your return policy".toList)))
          = false) ∧
      chat envTest ("what is your return policy".toList) =
        faqBranch envTest ("what is your return policy".toList) :=
  ⟨by decide, by decide,
    C9_policy_or_gate envTest ("what is your return policy".toList)
      (by decide) (by decide)⟩

/-! ### Lemmas about the retrieval loop -/

theorem pyGet_mem {α : Type} {xs : List α} {i : Int} {x : α}
    (h : pyGet xs i = some x) : x ∈ xs := by
  simp only [pyGet] at h
  split at h
  all_goals split at h
  all_goals first
    | exact List.getElem?_mem h
    | exact absurd h (by simp)

theorem buildResults_length_le (docs : List (List Char)) (t : ℚ) :
    ∀ (l : List (ℚ × Int)) (r : List (List Char)),
      buildResults docs t l = some r → r.length ≤ l.length := by
  intro l
  induction l with
  | nil =>
    intro r h
    simp only [buildResults, Option.some.injEq] at h
    simp [← h]
  | cons p rest ih =>
    obtain ⟨d, i⟩ := p
    intro r h
    by_cases hd : d ≤ t
    · simp only [buildResults, if_pos hd] at h
      cases hg : pyGet docs i with
      | none => rw [hg] at h; simp at h
      | some doc =>
        rw [hg] at h
        cases hb : buildResults docs t rest with
        | none => rw [hb] at h; simp at h
        | some rs =>
          rw [hb] at h
          simp only [Option.some.injEq] at h
          subst h
          simpa using Nat.succ_le_succ (ih rs hb)
    · simp only [buildResults, if_neg hd] at h
      exact Nat.le_succ_of_le (ih r h)

theorem buildResults_mem (docs : List (List Char)) (t : ℚ) :
    ∀ (l : List (ℚ × Int)) (r : List (List Char)),
      buildResults docs t l = some r → ∀ x ∈ r, x ∈ docs := by
  intro l
  induction l with
  | nil =>
    intro r h
    simp only [buildResults, Option.some.injEq] at h
    simp [← h]
  | cons p rest ih =>
    obtain ⟨d, i⟩ := p
    intro r h
    by_cases hd : d ≤ t
    · simp only [buildResults, if_pos hd] at h
      cases hg : pyGet docs i with
      | none => rw [hg] at h; simp at h
      | some doc =>
        rw [hg] at h
        cases hb : buildResults docs t rest with
        | none => rw [hb] at h; simp at h
        | some rs =>
          rw [hb] at h
          simp only [Option.some.injEq] at h
          subst h
          intro x hx
          rcases List.mem_cons.1 hx with rfl | hx2
          · exact pyGet_mem hg
          · exact ih rs hb x hx2
    · simp only [buildResults, if_neg hd] at h
      exact ih r h

theorem buildResults_mono (docs : List (List Char)) (t1 t2 : ℚ) (ht : t1 ≤ t2) :
    ∀ (l : List (ℚ × Int)) (r1 r2 : List (List Char)),
      buildResults docs t1 l = some r1 → buildResults docs t2 l = some r2 →
      ∀ x ∈ r1, x ∈ r2 := by
  intro l
  induction l with
  | nil =>
    intro r1 r2 h1 h2
    simp only [buildResults, Option.some.injEq] at h1 h2
    subst h1
    simp
  | cons p rest ih =>
    obtain ⟨d, i⟩ := p
    intro r1 r2 h1 h2
    by_cases hd1 : d ≤ t1
    · have hd2 : d ≤ t2 := le_trans hd1 ht
      simp only [buildResults, if_pos hd1] at h1
      simp only [buildResults, if_pos hd2] at h2
      cases hg : pyGet docs i with
      | none => rw [hg] at h1; simp at h1
      | some doc =>
        rw [hg] at h1 h2
        cases hb1 : buildResults docs t1 rest with
        | none => rw [hb1] at h1; simp at h1
        | some rs1 =>
          cases hb2 : buildResults docs t2 rest with
          | none => rw [hb2] at h2; simp at h2
          | some rs2 =>
            rw [hb1] at h1
            rw [hb2] at h2
            simp only [Option.some.injEq] at h1 h2
            subst h1
            subst h2
            intro x hx
            rcases List.mem_cons.1 hx with rfl | hx2
            · exact List.mem_cons_self _ _
            · exact List.mem_cons_of_mem _ (ih rs1 rs2 hb1 hb2 x hx2)
    · simp only [buildResults, if_neg hd1] at h1
      by_cases hd2 : d ≤ t2
      · simp only [buildResults, if_pos hd2] at h2
        cases hg : pyGet docs i with
        | none => rw [hg] at h2; simp at h2
        | some doc =>
          rw [hg] at h2
          cases hb2 : buildResults docs t2 rest with
          | none => rw [hb2] at h2; simp at h2
          | some rs2 =>
            rw [hb2] at h2
            simp only [Option.some.injEq] at h2
            subst h2
            intro x hx
            exact List.mem_cons_of_mem _ (ih r1 rs2 h1 hb2 x hx)
      · simp only [buildResults, if_neg hd2] at h2
        exact ih r1 r2 h1 h2

theorem buildResults_all_above (docs : List (List Char)) (t : ℚ) :
    ∀ (l : List (ℚ × Int)), (∀ p ∈ l, t < p.1) →
      buildResults docs t l = some [] := by
  intro l
  induction l with
  | nil => intro _; rfl
  | cons p rest ih =>
    obtain ⟨d, i⟩ := p
    intro h
    have hd : ¬ d ≤ t := by
      have := h (d, i) (List.mem_cons_self _ _)
      simpa using this
    simp only [buildResults, if_neg hd]
    exact ih (fun p hp => h p (List.mem_cons_of_mem _ hp))

/-- C3: for a fixed query, corpus and k, raising the distance threshold never
shrinks the result set, and the threshold is a hard cutoff: the result can be
empty even on a non-empty corpus. -/
theorem C3_threshold_monotone (docs : List (List Char))
    (searchFn : List Char → Nat → List ℚ × List Int)
    (query : List Char) (k : Nat) (t1 t2 : ℚ) (r1 r2 : List (List Char))
    (ht : t1 ≤ t2)
    (h1 : retrieve_docs docs searchFn query k t1 = some r1)
    (h2 : retrieve_docs docs searchFn query k t2 = some r2) :
    (∀ x ∈ r1, x ∈ r2) ∧
      (∃ (docs2 : List (List Char))
        (sf2 : List Char → Nat → List ℚ × List Int)
        (q2 : List Char) (k2 : Nat) (t : ℚ),
        docs2 ≠ [] ∧ retrieve_docs docs2 sf2 q2 k2 t = some []) := by
  constructor
  · simp only [retrieve_docs] at h1 h2
    exact buildResults_mono docs t1 t2 ht _ r1 r2 h1 h2
  · refine ⟨[['a']], fun _ _ => ([3], [0]), [], 4, 5/2, by simp, ?_⟩
    simp only [retrieve_docs, List.zip]
    norm_num [buildResults, List.zipWith]

theorem C3_witness :
    retrieve_docs [['a']] (fun _ _ => ([1], [0])) [] 1 1 = some [['a']] ∧
      retrieve_docs [['a']] (fun _ _ => ([1], [0])) [] 1 2 = some [['a']] ∧
      ∀ x ∈ [['a']], x ∈ [['a']] :=
  ⟨by decide, by decide,
    (C3_threshold_monotone [['a']] (fun _ _ => ([1], [0])) [] 1 1 2
      [['a']] [['a']] (by norm_num) (by decide) (by decide)).1⟩

/-- C10: assuming the index collaborator returns at most k neighbour rows,
a successful retrieval returns at most k entries and every returned entry is
an element of the loaded corpus (placeholder ids such as -1 resolve, as in
Python, to an element of a non-empty corpus or make the call fail). -/
theorem C10_result_bounded (docs : List (List Char))
    (sf : List Char → Nat → List ℚ × List Int)
    (q : List Char) (k : Nat) (t : ℚ) (r : List (List Char))
    (_hk1 : 1 ≤ k)
    (hk : (sf q k).2.length ≤ k)
    (hr : retrieve_docs docs sf q k t = some r) :
    r.length ≤ k ∧ ∀ x ∈ r, x ∈ docs := by
  simp only [retrieve_docs] at hr
  constructor
  · have hlen := buildResults_length_le docs t _ r hr
    have hzip : ((sf q k).1.zip (sf q k).2).length ≤ (sf q k).2.length := by
      rw [List.length_zip]
      exact min_le_right _ _
    exact le_trans hlen (le_trans hzip hk)
  · exact buildResults_mem docs t _ r hr

theorem C10_witness :
    retrieve_docs [['a'], ['b']] (fun _ _ => ([1, 1], [0, -1])) [] 4 2 =
      some [['a'], ['b']] ∧
      (some [['a'], ['b']] : Option (List (List Char))).isSome = true ∧
      ([['a'], ['b']] : List (List Char)).length ≤ 4 ∧
      ∀ x ∈ ([['a'], ['b']] : List (List Char)), x ∈ [['a'], ['b']] :=
  ⟨by decide, by decide,
    (C10_result_bounded [['a'], ['b']] (fun _ _ => ([1, 1], [0, -1])) [] 4 2
      [['a'], ['b']] (by norm_num) (by decide) (by decide)).1,
    (C10_result_bounded [['a'], ['b']] (fun _ _ => ([1, 1], [0, -1])) [] 4 2
      [['a'], ['b']] (by norm_num) (by decide) (by decide)).2⟩

/-- C8: on the FAQ/retrieval path, an empty retrieval yields the fixed
insufficient-information message and the generator is never invoked; and
whenever the index reports only distances above the threshold (as FAISS does
on an empty corpus), retrieval returns the empty list for every query. -/
theorem C8_empty_retrieval_no_generation (env : Env) (q : List Char)
    (hguard : ((classify_intent q).needs_order_id &&
      oidFalsy (extract_order_id q)) = false)
    (hroute : ((((classify_intent q).intent == "faq".toList) ||
        ((classify_intent q).intent == "unknown".toList)) ||
      is_policy_query q) = true)
    (hempty : env.retrieve q = []) :
    (chat env q = (insufficientMsg, [Effect.retrieval]) ∧
      Effect.generation ∉ (chat env q).2) ∧
    (∀ (docs : List (List Char)) (sf : List Char → Nat → List ℚ × List Int)
      (q2 : List Char) (k : Nat) (t : ℚ),
      (∀ p ∈ ((sf q2 k).1.zip (sf q2 k).2), t < p.1) →
      retrieve_docs docs sf q2 k t = some []) := by
  have hchat : chat env q = (insufficientMsg, [Effect.retrieval]) := by
    simp only [chat, hguard, hroute, Bool.false_eq_true, if_false, if_true]
    simp only [faqBranch, hempty, List.isEmpty_nil, if_true]
  refine ⟨⟨hchat, ?_⟩, ?_⟩
  · rw [hchat]
    decide
  · intro docs sf q2 k t hall
    simp only [retrieve_docs]
    exact buildResults_all_above docs t _ hall

theorem C8_witness :
    (((classify_intent ("exchange item".toList)).needs_order_id &&
      oidFalsy (extract_order_id ("exchange item".toList))) = false) ∧
      chat envTest ("exchange item".toList) =
        (insufficientMsg, [Effect.retrieval]) :=
  ⟨by decide,
    ((C8_empty_retrieval_no_generation envTest ("exchange item".toList)
      (by decide) (by decide) (by decide)).1).1⟩

/-! ### Lemmas for the extractor characterization -/

theorem isWordChar_of_isDigit {c : Char} (h : c.isDigit = true) :
    isWordChar c = true := by
  rw [char_isWordChar_iff]
  rw [char_isDigit_iff] at h
  omega

theorem takeWhile_append_of_all {p : Char → Bool} :
    ∀ (r post : List Char), (∀ c ∈ r, p c = true) →
      (∀ c, post.head? = some c → p c = false) →
      (r ++ post).takeWhile p = r ∧ (r ++ post).dropWhile p = post := by
  intro r
  induction r with
  | nil =>
    intro post _ hp
    cases post with
    | nil => exact ⟨rfl, rfl⟩
    | cons c cs =>
      have hc := hp c rfl
      constructor
      · simp [List.takeWhile_cons, hc]
      · simp [List.dropWhile_cons, hc]
  | cons c cs ih =>
    intro post hall hp
    have hc : p c = true := hall c (List.mem_cons_self _ _)
    have ihr := ih post (fun d hd => hall d (List.mem_cons_of_mem _ hd)) hp
    constructor
    · simp [List.takeWhile_cons, hc, ihr.1]
    · simp [List.dropWhile_cons, hc, ihr.2]

theorem specMatch_of_matchAt {s : List Char} {i : Nat} {r : List Char}
    (h : matchAt s i = some r) : SpecMatch s i r := by
  simp only [matchAt] at h
  split at h
  case isFalse => exact absurd h (by simp)
  case isTrue hc =>
    obtain ⟨h4, hl, hr⟩ := hc
    injection h with h
    subst h
    have hdeq : s.drop i = (s.drop i).takeWhile Char.isDigit ++
        (s.drop i).dropWhile Char.isDigit :=
      (List.takeWhile_append_dropWhile _ _).symm
    have hilt : i < s.length := by
      have hlen : 4 ≤ (s.drop i).length :=
        le_trans h4 (List.takeWhile_sublist _).length_le
      by_contra hge
      push_neg at hge
      rw [List.drop_eq_nil_of_le hge] at hlen
      simp at hlen
    refine ⟨s.take i, (s.drop i).dropWhile Char.isDigit, ?_, ?_, h4, ?_, ?_, ?_⟩
    · conv_lhs => rw [← List.take_append_drop i s, hdeq]
      rw [List.append_assoc]
    · simp [List.length_take]
      omega
    · intro c hc
      exact List.mem_takeWhile_imp hc
    · intro c hcl
      rw [hcl] at hl
      simpa [boundaryB] using hl
    · intro c hcr
      rw [hcr] at hr
      simpa [boundaryB] using hr

theorem matchAt_of_specMatch {s : List Char} {i : Nat} {r : List Char}
    (h : SpecMatch s i r) : matchAt s i = some r := by
  obtain ⟨pre, post, hs, hlen, h4, hdig, hpre, hpost⟩ := h
  have hpostd : ∀ c, post.head? = some c → Char.isDigit c = false := by
    intro c hc
    have hw := hpost c hc
    by_contra hd
    rw [Bool.not_eq_false] at hd
    rw [isWordChar_of_isDigit hd] at hw
    cases hw
  have hdrop : s.drop i = r ++ post := by
    rw [hs, ← hlen, List.append_assoc]
    exact List.drop_left pre (r ++ post)
  have htake : s.take i = pre := by
    rw [hs, ← hlen, List.append_assoc]
    exact List.take_left pre (r ++ post)
  have hTW := takeWhile_append_of_all r post hdig hpostd
  have hbl : boundaryB pre.getLast? = true := by
    cases hgl : pre.getLast? with
    | none => rfl
    | some c => simp [boundaryB, hpre c hgl]
  have hbr : boundaryB post.head? = true := by
    cases hh : post.head? with
    | none => rfl
    | some c => simp [boundaryB, hpost c hh]
  simp only [matchAt, hdrop, htake, hTW.1, hTW.2]
  rw [if_pos ⟨h4, hbl, hbr⟩]

theorem searchFrom_some_spec {s : List Char} :
    ∀ (fuel i : Nat) (r : List Char), searchFrom s fuel i = some r →
      ∃ j, i ≤ j ∧ j < i + fuel ∧ matchAt s j = some r ∧
        ∀ j2, i ≤ j2 → j2 < j → matchAt s j2 = none := by
  intro fuel
  induction fuel with
  | zero =>
    intro i r h
    simp [searchFrom] at h
  | succ n ih =>
    intro i r h
    simp only [searchFrom] at h
    cases hm : matchAt s i with
    | some r2 =>
      rw [hm] at h
      injection h with h
      subst h
      exact ⟨i, Nat.le_refl i, by omega, hm, fun j2 h1 h2 => by omega⟩
    | none =>
      rw [hm] at h
      obtain ⟨j, hj1, hj2, hj3, hj4⟩ := ih (i + 1) r h
      refine ⟨j, by omega, by omega, hj3, ?_⟩
      intro j2 hge hlt
      by_cases he : j2 = i
      · subst he
        exact hm
      · exact hj4 j2 (by omega) hlt

theorem searchFrom_none_spec {s : List Char} :
    ∀ (fuel i : Nat), searchFrom s fuel i = none →
      ∀ j, i ≤ j → j < i + fuel → matchAt s j = none := by
  intro fuel
  induction fuel with
  | zero =>
    intro i _ j h1 h2
    omega
  | succ n ih =>
    intro i h j h1 h2
    simp only [searchFrom] at h
    cases hm : matchAt s i with
    | some r2 =>
      rw [hm] at h
      cases h
    | none =>
      rw [hm] at h
      by_cases he : j = i
      · subst he
        exact hm
      · exact ih (i + 1) h j (by omega) (by omega)

theorem specMatch_index_le {s : List Char} {i : Nat} {r : List Char}
    (h : SpecMatch s i r) : i + 4 ≤ s.length := by
  obtain ⟨pre, post, hs, hlen, h4, _, _, _⟩ := h
  have hL := congrArg List.length hs
  simp [List.length_append] at hL
  omega

/-- C7 counterexample: on "x1234 5678" the claimed reading (first maximal
≥4-digit run bounded by non-digit characters) selects "1234", but the code,
whose regex word boundary also rejects letters, skips it and returns
"5678". -/
theorem C7_counterexample :
    claimedExtract ("x1234 5678".toList) = some ("1234".toList) ∧
      extract_order_id ("x1234 5678".toList) = some ("5678".toList) ∧
      ("1234".toList : List Char) ≠ "5678".toList := by
  refine ⟨by decide, by decide, by decide⟩

/-- C7 amended: extract_order_id returns exactly the leftmost maximal run of
4 or more digits bounded by non-word characters (regex `\b`: letters, digits
and underscore are word characters), and returns none exactly when no such
run exists; later runs are ignored. -/
theorem C7_first_word_digit_run (s : List Char) :
    (∀ r, extract_order_id s = some r ↔ SpecFirst s r) ∧
    (extract_order_id s = none ↔ ∀ i r, ¬ SpecMatch s i r) := by
  constructor
  · intro r
    constructor
    · intro h
      simp only [extract_order_id] at h
      obtain ⟨j, _, _, hmj, hmin⟩ := searchFrom_some_spec (s.length + 1) 0 r h
      refine ⟨j, specMatch_of_matchAt hmj, ?_⟩
      intro j2 r2 hm2
      by_contra hlt
      push_neg at hlt
      have hnone := hmin j2 (Nat.zero_le _) hlt
      rw [matchAt_of_specMatch hm2] at hnone
      cases hnone
    · rintro ⟨i, hmi, hmin⟩
      cases hcase : extract_order_id s with
      | none =>
        have hb := specMatch_index_le hmi
        simp only [extract_order_id] at hcase
        have hn := searchFrom_none_spec (s.length + 1) 0 hcase i
          (Nat.zero_le _) (by omega)
        rw [matchAt_of_specMatch hmi] at hn
        cases hn
      | some r2 =>
        simp only [extract_order_id] at hcase
        obtain ⟨j, _, _, hmj, hminj⟩ :=
          searchFrom_some_spec (s.length + 1) 0 r2 hcase
        have hij : i ≤ j := hmin j r2 (specMatch_of_matchAt hmj)
        have hji : ¬ i < j := by
          intro hlt
          have hn := hminj i (Nat.zero_le _) hlt
          rw [matchAt_of_specMatch hmi] at hn
          cases hn
        have hie : i = j := by omega
        subst hie
        rw [matchAt_of_specMatch hmi] at hmj
        injection hmj with h2
        rw [h2]
  · constructor
    · intro h i r hm
      have hb := specMatch_index_le hm
      simp only [extract_order_id] at h
      have hn := searchFrom_none_spec (s.length + 1) 0 h i
        (Nat.zero_le _) (by omega)
      rw [matchAt_of_specMatch hm] at hn
      cases hn
    · intro h
      cases hcase : extract_order_id s with
      | none => rfl
      | some r =>
        simp only [extract_order_id] at hcase
        obtain ⟨j, _, _, hmj, _⟩ :=
          searchFrom_some_spec (s.length + 1) 0 r hcase
        exact absurd (specMatch_of_matchAt hmj) (h j r)
